import Mathlib

/-!
Verification of the versifi-go streaming WebSocket client (`websocket.go`,
with the REST signer from `client.go`) against its natural-language
specification.

The embedding is shallow: each Go function relevant to the claims is
translated into a pure Lean function over an explicit state record, and
the concurrency of the supervisor (mutex-guarded critical sections) is
modelled as a small-step transition relation whose steps are exactly the
lock-protected regions of the source.  External effects (the TCP dial,
the socket close, the peer's auth reply) are passed in as explicit
outcome parameters.
-/

namespace Versifi

/-! ## Bytes, SHA-256 and HMAC (Go stdlib `crypto/sha256`, `crypto/hmac`,
`encoding/hex`, as invoked by `sign` in websocket.go:454-459 and
client.go:235-240).  Bytes are `Nat` values below 256; words are `Nat`
values reduced mod 2^32 explicitly. -/

/-- Reduce to a 32-bit word. -/
def wrap32 (n : Nat) : Nat := n % 4294967296

/-- Right rotation of a 32-bit word by `n` bits (0 ≤ n < 32). -/
def rotr32 (x n : Nat) : Nat := wrap32 ((x >>> n) ||| (x <<< (32 - n)))

def shaCh (x y z : Nat) : Nat := (x &&& y) ^^^ ((x ^^^ 4294967295) &&& z)

def shaMaj (x y z : Nat) : Nat := (x &&& y) ^^^ (x &&& z) ^^^ (y &&& z)

def bigSigma0 (x : Nat) : Nat := rotr32 x 2 ^^^ rotr32 x 13 ^^^ rotr32 x 22

def bigSigma1 (x : Nat) : Nat := rotr32 x 6 ^^^ rotr32 x 11 ^^^ rotr32 x 25

def smallSigma0 (x : Nat) : Nat := rotr32 x 7 ^^^ rotr32 x 18 ^^^ (x >>> 3)

def smallSigma1 (x : Nat) : Nat := rotr32 x 17 ^^^ rotr32 x 19 ^^^ (x >>> 10)

/-- The 64 SHA-256 round constants (FIPS 180-4, written in decimal). -/
def shaK : List Nat :=
  [1116352408, 1899447441, 3049323471, 3921009573, 961987163,
   1508970993, 2453635748, 2870763221, 3624381080, 310598401,
   607225278, 1426881987, 1925078388, 2162078206, 2614888103,
   3248222580, 3835390401, 4022224774, 264347078, 604807628,
   770255983, 1249150122, 1555081692, 1996064986, 2554220882,
   2821834349, 2952996808, 3210313671, 3336571891, 3584528711,
   113926993, 338241895, 666307205, 773529912, 1294757372,
   1396182291, 1695183700, 1986661051, 2177026350, 2456956037,
   2730485921, 2820302411, 3259730800, 3345764771, 3516065817,
   3600352804, 4094571909, 275423344, 430227734, 506948616,
   659060556, 883997877, 958139571, 1322822218, 1537002063,
   1747873779, 1955562222, 2024104815, 2227730452, 2361852424,
   2428436474, 2756734187, 3204031479, 3329325298]

/-- The SHA-256 initial hash value (FIPS 180-4, written in decimal). -/
def shaH0 : List Nat :=
  [1779033703, 3144134277, 1013904242, 2773480762,
   1359893119, 2600822924, 528734635, 1541459225]

/-- Big-endian 8-byte encoding of a length value. -/
def be64 (n : Nat) : List Nat :=
  [n >>> 56 % 256, n >>> 48 % 256, n >>> 40 % 256, n >>> 32 % 256,
   n >>> 24 % 256, n >>> 16 % 256, n >>> 8 % 256, n % 256]

/-- SHA-256 padding: append 0x80, zero bytes to 56 mod 64, then the
big-endian 64-bit bit length. -/
def shaPad (msg : List Nat) : List Nat :=
  let L := msg.length
  let k := (64 - ((L + 9) % 64)) % 64
  msg ++ 0x80 :: List.replicate k 0 ++ be64 (8 * L)

/-- Big-endian 32-bit word from four bytes at offset `off`. -/
def wordAt (l : List Nat) (off : Nat) : Nat :=
  16777216 * l.getD off 0 + 65536 * l.getD (off + 1) 0 +
    256 * l.getD (off + 2) 0 + l.getD (off + 3) 0

/-- The 16 message words of block number `b` of a padded message. -/
def blockWords (padded : List Nat) (b : Nat) : List Nat :=
  (List.range 16).map (fun w => wordAt padded (64 * b + 4 * w))

/-- Extend 16 message words to a 64-word message schedule. -/
def shaSchedule (ws : List Nat) : List Nat :=
  (List.range 48).foldl
    (fun w i =>
      w ++ [wrap32 (smallSigma1 (w.getD (i + 14) 0) + w.getD (i + 9) 0 +
        smallSigma0 (w.getD (i + 1) 0) + w.getD i 0)])
    ws

/-- One round of the SHA-256 compression function on the 8-tuple state. -/
def shaRound (w : List Nat) (st : Nat × Nat × Nat × Nat × Nat × Nat × Nat × Nat)
    (t : Nat) : Nat × Nat × Nat × Nat × Nat × Nat × Nat × Nat :=
  match st with
  | (a, b, c, d, e, f, g, h) =>
    let T1 := wrap32 (h + bigSigma1 e + shaCh e f g + shaK.getD t 0 + w.getD t 0)
    let T2 := wrap32 (bigSigma0 a + shaMaj a b c)
    (wrap32 (T1 + T2), a, b, c, wrap32 (d + T1), e, f, g)

/-- SHA-256 compression of one 16-word block into the running hash. -/
def shaCompress (hs : List Nat) (ws : List Nat) : List Nat :=
  let w := shaSchedule ws
  let init := (hs.getD 0 0, hs.getD 1 0, hs.getD 2 0, hs.getD 3 0,
               hs.getD 4 0, hs.getD 5 0, hs.getD 6 0, hs.getD 7 0)
  match (List.range 64).foldl (shaRound w) init with
  | (a, b, c, d, e, f, g, h) =>
    [wrap32 (hs.getD 0 0 + a), wrap32 (hs.getD 1 0 + b),
     wrap32 (hs.getD 2 0 + c), wrap32 (hs.getD 3 0 + d),
     wrap32 (hs.getD 4 0 + e), wrap32 (hs.getD 5 0 + f),
     wrap32 (hs.getD 6 0 + g), wrap32 (hs.getD 7 0 + h)]

/-- Big-endian 4-byte decomposition of a 32-bit word. -/
def be32 (n : Nat) : List Nat :=
  [n >>> 24 % 256, n >>> 16 % 256, n >>> 8 % 256, n % 256]

/-- SHA-256 of a byte sequence, as a 32-byte digest. -/
def sha256 (msg : List Nat) : List Nat :=
  let padded := shaPad msg
  let nBlocks := padded.length / 64
  let final := (List.range nBlocks).foldl
    (fun hs b => shaCompress hs (blockWords padded b)) shaH0
  final.flatMap be32

/-- HMAC-SHA256 (Go `crypto/hmac` with `sha256.New`, block size 64):
keys longer than one block are hashed first, the key is zero-padded to
the block size, and the digest is `H((k ⊕ opad) ∥ H((k ⊕ ipad) ∥ msg))`. -/
def hmacSha256 (key msg : List Nat) : List Nat :=
  let k0 := if 64 < key.length then sha256 key else key
  let k := k0 ++ List.replicate (64 - k0.length) 0
  let inner := sha256 (k.map (· ^^^ 0x36) ++ msg)
  sha256 (k.map (· ^^^ 0x5c) ++ inner)

/-- Lowercase hex digit for a value below 16 (Go `encoding/hex`). -/
def hexDigit (d : Nat) : Char :=
  Char.ofNat (if d < 10 then 48 + d else 87 + d)

/-- Lowercase hex encoding of a byte sequence (Go `hex.EncodeToString`). -/
def hexEncode (bs : List Nat) : String :=
  String.mk (bs.flatMap (fun b => [hexDigit (b / 16 % 16), hexDigit (b % 16)]))

/-- UTF-8 bytes of a string (the Go `[]byte(s)` conversion). -/
def strBytes (s : String) : List Nat :=
  s.toUTF8.toList.map UInt8.toNat

/-- Signer of the streaming client (websocket.go:454-459):
`key := []byte(c.APISecret); h := hmac.New(sha256.New, key);
h.Write([]byte(payload)); return hex.EncodeToString(h.Sum(nil))`. -/
def WsClient.sign (apiSecret payload : String) : String :=
  hexEncode (hmacSha256 (strBytes apiSecret) (strBytes payload))

/-- Signer of the REST client (client.go:235-240); textually the same
construction as the streaming signer. -/
def Client.sign (apiSecret payload : String) : String :=
  hexEncode (hmacSha256 (strBytes apiSecret) (strBytes payload))

/-! ## The outbound auth frame (`authenticate`, websocket.go:144-162).
The clock is a parameter `now` in unix seconds; `time.Now().Add(5 *
time.Minute).Unix()` is `now + 300` (the five-minute lead is a whole
number of seconds, so truncation to seconds commutes with the addition).
Go's `fmt.Sprintf("%d", n)` on an `int64` agrees with Lean's `toString`
on `Int`. -/

/-- An outbound `{"op": ..., "args": [...]}` control frame with string
arguments, as built by `authenticate` and `Subscribe`. -/
structure OutFrame where
  op : String
  args : List String
  deriving Repr, DecidableEq

/-- The auth frame built by `authenticate` (websocket.go:144-162):
`expires := now + 5 minutes`, `payload := "GET/realtime" ++ decimal
expires`, frame `{"op":"auth","args":[key, decimal expires, sign payload]}`. -/
def authFrame (apiKey apiSecret : String) (now : Int) : OutFrame :=
  let expires : Int := now + 5 * 60
  let payload : String := "GET/realtime" ++ toString expires
  let signature := WsClient.sign apiSecret payload
  { op := "auth", args := [apiKey, toString expires, signature] }

/-! ## Supervisor state (the fields of `WsClient`, websocket.go:31-46,
restricted to the shared mutable scalars guarded by `c.mu`).  `hasConn`
models `c.conn != nil`; `doneClosed` models whether `close(c.done)` has
run; `pendingAuthOk` models an auth-success frame that the read loop has
already received and whose `__auth__` handler invocation is still
pending (websocket.go:359-368 together with :172-190). -/
structure WsState where
  isConnected : Bool
  isAuthenticated : Bool
  reconnect : Bool
  doneClosed : Bool
  hasConn : Bool
  pendingAuthOk : Bool
  deriving Repr, DecidableEq

/-- The state of a freshly constructed client (`NewWsClient`,
websocket.go:49-60): disconnected, unauthenticated, reconnect enabled,
`done` open, no socket. -/
def initState : WsState :=
  { isConnected := false, isAuthenticated := false, reconnect := true,
    doneClosed := false, hasConn := false, pendingAuthOk := false }

/-- Result of a `Disconnect` call: whether a `close` of an
already-closed channel occurred (a Go runtime panic), the returned
error, and the post-state. -/
structure DisconnectResult where
  panicked : Bool
  err : Option String
  st : WsState
  deriving Repr, DecidableEq

/-- `Disconnect` (websocket.go:213-244).  `closeErr` is the outcome of
`c.conn.Close()` (external).  If the client is not connected the call
returns `nil` immediately and changes nothing.  Otherwise it sets
`reconnect := false`, closes `done` (a second close would panic), and —
only if `conn.Close()` succeeds — clears the connection and
authentication flags; on a close error it returns early (websocket.go:
233-236) with the flags still set. -/
def WsClient.Disconnect (s : WsState) (closeErr : Option String) : DisconnectResult :=
  if s.isConnected = false then
    { panicked := false, err := none, st := s }
  else
    let pan := s.doneClosed
    let s1 := { s with reconnect := false, doneClosed := true }
    if s.hasConn then
      match closeErr with
      | some e =>
        { panicked := pan, err := some ("failed to close connection: " ++ e), st := s1 }
      | none =>
        { panicked := pan, err := none,
          st := { s1 with isConnected := false, isAuthenticated := false, hasConn := false } }
    else
      { panicked := pan, err := none,
        st := { s1 with isConnected := false, isAuthenticated := false, hasConn := false } }

/-- What the external world does with one `Connect()` attempt: the dial
fails, or the dial succeeds and the auth handshake either succeeds or
fails (rejection and the 10-second timeout behave identically in
websocket.go:130-133). -/
inductive DialOutcome
  | fail
  | ok (authOk : Bool)
  deriving Repr, DecidableEq

/-- Result of a `Connect` call: the returned error, whether a dial was
attempted, and the post-state. -/
structure ConnectResult where
  err : Option String
  dialed : Bool
  st : WsState
  deriving Repr, DecidableEq

/-- `Connect` (websocket.go:86-141) as a state transformer, with the
interleaved auth handshake flattened to its outcome.  If already
connected it returns the error without dialing (websocket.go:86-92).
On dial failure it returns the error with the state unchanged
(websocket.go:116-119).  On dial success it sets `conn` and
`isConnected` (websocket.go:121-124); a successful handshake sets
`isAuthenticated` via the `__auth__` handler (websocket.go:181-183),
while a failed or timed-out handshake calls `c.Disconnect()` and
returns the error (websocket.go:130-133). -/
def WsClient.Connect (s : WsState) (o : DialOutcome) (closeErr : Option String) :
    ConnectResult :=
  if s.isConnected then
    { err := some "already connected", dialed := false, st := s }
  else
    match o with
    | .fail => { err := some "failed to connect", dialed := true, st := s }
    | .ok authOk =>
      let s1 := { s with hasConn := true, isConnected := true }
      if authOk then
        { err := none, dialed := true, st := { s1 with isAuthenticated := true } }
      else
        { err := some "authentication failed", dialed := true,
          st := (WsClient.Disconnect s1 closeErr).st }

/-- The locked region of the `readMessages` deferred teardown
(websocket.go:316-320): the connection and authentication flags are
cleared together under one lock acquisition. -/
def readTeardown (s : WsState) : WsState :=
  { s with isConnected := false, isAuthenticated := false }

/-! ## Topic registry (`c.handlers : map[string]WsHandler`,
websocket.go:40).  Handler values are opaque and identified by `Nat`
ids; the Go map is modelled as a key-unique association list, with
assignment replacing any previous binding. -/

/-- A topic registry: map from topic name to handler id. -/
def Handlers := List (String × Nat)

/-- Go map assignment `handlers[topic] = h`. -/
def insertHandler (hs : Handlers) (topic : String) (h : Nat) : Handlers :=
  (topic, h) :: List.filter (fun p => p.1 ≠ topic) hs

/-- Go map lookup `handler, exists := handlers[topic]`. -/
def lookupHandler (hs : Handlers) (topic : String) : Option Nat :=
  match List.find? (fun p => p.1 = topic) hs with
  | some p => some p.2
  | none => none

/-! ## Read-loop dispatch (`readMessages`, websocket.go:335-421).
Given the registry and the `op` field of a decoded inbound frame, the
dispatch below returns the ids of the handlers invoked for that frame,
in invocation order.  Mirrors the source exactly: `auth` goes to the
one-shot `__auth__` handler (:359-369); `ping` and `subscribe` are
log-only (:371-379); `execution_report` invokes the specific handler
and then also the wildcard handler (:382-400); every other op invokes
the specific handler if registered, and otherwise only the wildcard
(:402-418). -/
def dispatchMessage (hs : Handlers) (op : String) : List Nat :=
  if op = "auth" then
    match lookupHandler hs "__auth__" with
    | some h => [h]
    | none => []
  else if op = "ping" then []
  else if op = "subscribe" then []
  else if op = "execution_report" then
    (match lookupHandler hs "execution_report" with
     | some h => [h]
     | none => []) ++
    (match lookupHandler hs "*" with
     | some w => [w]
     | none => [])
  else
    match lookupHandler hs op with
    | some h => [h]
    | none =>
      match lookupHandler hs "*" with
      | some w => [w]
      | none => []

/-! ## Subscribe (`Subscribe`, websocket.go:247-266) and `SendJSON`
(websocket.go:295-304), with an explicit trace of the actions the call
performs, in program order. -/

/-- Observable actions of a client call: a registry mutation, or a
frame written to the wire. -/
inductive Action
  | register (topic : String) (h : Nat)
  | send (f : OutFrame)
  deriving Repr, DecidableEq

/-- Client state visible to `Subscribe`: the supervisor flags plus the
topic registry. -/
structure ClientState where
  ws : WsState
  handlers : Handlers

/-- `SendJSON` (websocket.go:295-304): fails with an error and writes
nothing unless connected with a live socket handle; otherwise writes
the frame. -/
def SendJSON (s : WsState) (f : OutFrame) : Option String × List Action :=
  if s.isConnected = false ∨ s.hasConn = false then (some "not connected", [])
  else (none, [Action.send f])

/-- Result of a `Subscribe` call: returned error, post-state, and the
ordered trace of registry mutations and wire writes it performed. -/
structure SubscribeResult where
  err : Option String
  st : ClientState
  trace : List Action

/-- `Subscribe` (websocket.go:247-266): if not authenticated, return
the error having performed nothing; otherwise store the handler in the
registry (:255-257) and then send `{"op":"subscribe","args":[topic]}`
(:259-265). -/
def WsClient.Subscribe (c : ClientState) (topic : String) (h : Nat) : SubscribeResult :=
  if c.ws.isAuthenticated = false then
    { err := some "not authenticated", st := c, trace := [] }
  else
    let c1 : ClientState := { c with handlers := insertHandler c.handlers topic h }
    let sent := SendJSON c1.ws { op := "subscribe", args := [topic] }
    { err := sent.1, st := c1, trace := Action.register topic h :: sent.2 }

/-! ## Reconnection control flow (the deferred block of `readMessages`,
websocket.go:315-333, combined with `Connect`, websocket.go:86-141).
`attemptsAfterReadFailure flag outcomes` counts how many `Connect()`
calls the supervisor makes after a read-loop failure, where `flag` is
the reconnect flag at the failure and `outcomes` lists what the
environment does with each successive attempt.  Per the source, the
deferred block makes exactly one `Connect()` call (:326); if that call
fails at the dial, no new read loop exists and nothing schedules a
further call (:326-331); if the dial succeeds but authentication fails,
`Connect` has called `Disconnect()`, which sets the reconnect flag to
false, so the deferred block of the read loop spawned at :127 makes no
further call; only if the attempt fully succeeds does a later read
failure re-enter the deferred block with the flag still true. -/
def attemptsAfterReadFailure (flag : Bool) : List DialOutcome → Nat
  | [] => 0
  | o :: rest =>
    if flag then
      match o with
      | .fail => 1
      | .ok false => 1
      | .ok true => 1 + attemptsAfterReadFailure true rest
    else 0

/-! ## Interleaving semantics of the supervisor.  Each constructor is
one mutex-guarded critical section (or one externally-driven event) of
the source; the read loop, the auth waiter and `Disconnect` run on
different goroutines, so these sections interleave arbitrarily. -/

/-- One atomic step of the concurrent client. -/
inductive Step : WsState → WsState → Prop
  /-- `Connect` acquires the socket and sets the connected flag
  (websocket.go:121-124). -/
  | dialOk (s : WsState) : s.isConnected = false →
      Step s { s with hasConn := true, isConnected := true }
  /-- The read loop receives an `auth` success frame and looks up the
  `__auth__` handler (websocket.go:340, 359-363); the handler body has
  not yet run. -/
  | readAuthOk (s : WsState) : s.isConnected = true →
      Step s { s with pendingAuthOk := true }
  /-- The pending `__auth__` handler body runs and sets the
  authenticated flag (websocket.go:181-183) — without re-checking the
  connected flag. -/
  | authHandler (s : WsState) : s.pendingAuthOk = true →
      Step s { s with isAuthenticated := true, pendingAuthOk := false }
  /-- A full `Disconnect` call (websocket.go:213-244). -/
  | disconnect (s : WsState) (e : Option String) :
      Step s (WsClient.Disconnect s e).st
  /-- The read loop fails and its deferred teardown clears both flags
  under one lock (websocket.go:316-320). -/
  | teardown (s : WsState) : s.hasConn = true →
      Step s (readTeardown s)

/-- States reachable from the freshly constructed client. -/
def Reachable (s : WsState) : Prop :=
  Relation.ReflTransGen Step initState s

/-! ## Concrete states and registries used to instantiate the theorems. -/

/-- A connected, authenticated supervisor state (the state after a
fully successful `Connect()`). -/
def connState : WsState :=
  { isConnected := true, isAuthenticated := true, reconnect := true,
    doneClosed := false, hasConn := true, pendingAuthOk := false }

/-- A registry holding a specific handler (id 1) for the business topic
`analytics` and a wildcard handler (id 2). -/
def hsBoth : Handlers := [("analytics", 1), ("*", 2)]

/-- The client state as constructed by `NewWsClient`: fresh flags and
an empty registry. -/
def initClient : ClientState := { ws := initState, handlers := [] }

/-- A connected, authenticated client with an empty registry. -/
def authClient : ClientState := { ws := connState, handlers := [] }

/-- Looking up a topic right after storing a handler for it yields that
handler. -/
theorem lookupHandler_insert (hs : Handlers) (topic : String) (h : Nat) :
    lookupHandler (insertHandler hs topic h) topic = some h := by
  simp [lookupHandler, insertHandler]

/-! ## Claim C1 — wildcard dispatch -/

/-- Claim C1 counterexample: `analytics` is a business operation (none
of `auth`, `ping`, `subscribe`), a wildcard handler (id 2) is
registered, yet an inbound `analytics` frame invokes only the specific
handler (id 1) — the wildcard handler is not invoked in addition,
contrary to the claim. -/
theorem wildcard_not_additive_counterexample :
    lookupHandler hsBoth "*" = some 2 ∧
    ("analytics" ≠ "auth" ∧ "analytics" ≠ "ping" ∧ "analytics" ≠ "subscribe") ∧
    dispatchMessage hsBoth "analytics" = [1] := by decide

/-- Claim C1 (amended): with a wildcard handler registered, an inbound
business frame is dispatched as follows — for `execution_report` the
specific handler (when registered) and then the wildcard handler are
both invoked, in that order; for every other business operation the
wildcard handler is invoked only when no specific handler is
registered, i.e. instead of, not in addition to, the specific one. -/
theorem wildcard_dispatch (hs : Handlers) (op : String) (w : Nat)
    (h1 : op ≠ "auth") (h2 : op ≠ "ping") (h3 : op ≠ "subscribe")
    (hw : lookupHandler hs "*" = some w) :
    dispatchMessage hs op =
      match lookupHandler hs op with
      | some h => if op = "execution_report" then [h, w] else [h]
      | none => [w] := by
  unfold dispatchMessage
  rw [if_neg h1, if_neg h2, if_neg h3]
  by_cases hex : op = "execution_report"
  · subst hex
    rw [if_pos rfl, hw]
    cases lookupHandler hs "execution_report" <;> simp
  · rw [if_neg hex]
    cases lookupHandler hs op
    · simp [hw]
    · simp [hex]

/-- Claim C1 amended witness: the dispatch rule evaluated on the
concrete registry `hsBoth` and the business operation `analytics`. -/
theorem wildcard_dispatch_witness :
    dispatchMessage hsBoth "analytics" =
      match lookupHandler hsBoth "analytics" with
      | some h => if "analytics" = "execution_report" then [h, 2] else [h]
      | none => [2] :=
  wildcard_dispatch hsBoth "analytics" 2 (by decide) (by decide) (by decide) (by decide)

/-! ## Claim C2 — when the reconnect flag is cleared -/

/-- Claim C2 counterexample: starting from the fresh client (reconnect
enabled, disconnected), a `Connect()` whose dial succeeds but whose
authentication fails returns the authentication error having set the
reconnect flag to `false` — the internal `c.Disconnect()` call at
websocket.go:131 disables auto-reconnect even though the caller never
called `Disconnect()` explicitly. -/
theorem reconnect_disabled_by_auth_failure_counterexample :
    initState.reconnect = true ∧ initState.isConnected = false ∧
    (WsClient.Connect initState (DialOutcome.ok false) none).err =
      some "authentication failed" ∧
    (WsClient.Connect initState (DialOutcome.ok false) none).st.reconnect = false := by
  decide

/-- Claim C2 (amended): auto-reconnect is disabled exactly when
`Disconnect()` runs while the client is connected — whether invoked
explicitly by the caller or internally by `Connect()` after an
authentication failure or timeout.  A read-loop teardown and a dial
failure leave the reconnect flag unchanged. -/
theorem reconnect_flag_paths (s t : WsState) (e : Option String)
    (hnc : s.isConnected = false) (hc : t.isConnected = true) :
    (readTeardown t).reconnect = t.reconnect ∧
    (WsClient.Connect s DialOutcome.fail e).st.reconnect = s.reconnect ∧
    (WsClient.Connect s (DialOutcome.ok false) e).st.reconnect = false ∧
    (WsClient.Disconnect t e).st.reconnect = false := by
  refine ⟨rfl, ?_, ?_, ?_⟩
  · simp [WsClient.Connect, hnc]
  · cases e <;> simp [WsClient.Connect, WsClient.Disconnect, hnc]
  · cases e with
    | none => simp [WsClient.Disconnect, hc]
    | some v =>
        simp [WsClient.Disconnect, hc]
        split <;> simp

/-- Claim C2 amended witness: the four reconnect-flag facts evaluated
at the fresh state and at a connected state, with a successful socket
close. -/
theorem reconnect_flag_paths_witness :
    (readTeardown connState).reconnect = connState.reconnect ∧
    (WsClient.Connect initState DialOutcome.fail none).st.reconnect = initState.reconnect ∧
    (WsClient.Connect initState (DialOutcome.ok false) none).st.reconnect = false ∧
    (WsClient.Disconnect connState none).st.reconnect = false :=
  reconnect_flag_paths initState connState none rfl rfl

/-! ## Claim C3 — retry count after a read failure -/

/-- Claim C3 counterexample: with auto-reconnect enabled and an
environment that would fail two successive attempts, the supervisor
makes exactly one `Connect()` call — not the two the claim's
unlimited-retry schedule predicts. -/
theorem reconnect_single_attempt_counterexample :
    attemptsAfterReadFailure true [DialOutcome.fail, DialOutcome.fail] = 1 ∧
    [DialOutcome.fail, DialOutcome.fail].length = 2 := by decide

/-- Claim C3 (amended): after a read-loop failure with auto-reconnect
enabled, exactly one `Connect()` attempt is made after the fixed delay;
if that attempt fails — at the dial or at authentication — no further
attempt is scheduled.  With auto-reconnect disabled no attempt is
made at all. -/
theorem reconnect_one_attempt (rest : List DialOutcome) (o : DialOutcome)
    (h : o = DialOutcome.fail ∨ o = DialOutcome.ok false) :
    attemptsAfterReadFailure true (o :: rest) = 1 ∧
    attemptsAfterReadFailure false (o :: rest) = 0 := by
  rcases h with h | h <;> subst h <;> simp [attemptsAfterReadFailure]

/-- Claim C3 amended witness: one attempt whose authentication fails,
with nothing scheduled after it. -/
theorem reconnect_one_attempt_witness :
    attemptsAfterReadFailure true [DialOutcome.ok false] = 1 ∧
    attemptsAfterReadFailure false [DialOutcome.ok false] = 0 :=
  reconnect_one_attempt [] (DialOutcome.ok false) (Or.inr rfl)

/-! ## Claim C4 — Subscribe before authentication -/

/-- Claim C4: in every client state in which authentication has not
completed, `Subscribe(topic, handler)` returns the not-authenticated
error, performs no action at all (zero wire writes, in particular no
subscribe frame), and leaves both the registry and the supervisor
flags unchanged. -/
theorem subscribe_unauthenticated_no_send (c : ClientState) (topic : String) (h : Nat)
    (hna : c.ws.isAuthenticated = false) :
    (WsClient.Subscribe c topic h).err = some "not authenticated" ∧
    (WsClient.Subscribe c topic h).trace = [] ∧
    (WsClient.Subscribe c topic h).st.handlers = c.handlers ∧
    (WsClient.Subscribe c topic h).st.ws = c.ws := by
  simp [WsClient.Subscribe, hna]

/-- Claim C4 witness: subscribing to `execution_report` on the fresh,
unauthenticated client. -/
theorem subscribe_unauthenticated_no_send_witness :
    (WsClient.Subscribe initClient "execution_report" 7).err = some "not authenticated" ∧
    (WsClient.Subscribe initClient "execution_report" 7).trace = [] ∧
    (WsClient.Subscribe initClient "execution_report" 7).st.handlers = initClient.handlers ∧
    (WsClient.Subscribe initClient "execution_report" 7).st.ws = initClient.ws :=
  subscribe_unauthenticated_no_send initClient "execution_report" 7 rfl

/-! ## Claim C5 — shape of the auth frame -/

/-- Claim C5: for every clock value, the outbound auth frame is
`{"op":"auth","args":[key, decimal(expires), hex-hmac-sha256]}` with
`expires` exactly 300 seconds past the current unix time, and the
signed payload is byte-exactly the string `GET/realtime` immediately
followed by the decimal expiry — no separator, no case change. -/
theorem auth_frame_bytes (key secret : String) (now : Int) :
    (authFrame key secret now).op = "auth" ∧
    (authFrame key secret now).args =
      [key, toString (now + 300),
       WsClient.sign secret ("GET/realtime" ++ toString (now + 300))] := by
  constructor
  · rfl
  · show [key, toString (now + 5 * 60), _] = _
    norm_num

/-! ## Claim C6 — the signer is deterministic and shared -/

/-- Claim C6: `sign` is a pure function of the secret and the payload —
two signers holding the same secret (here the streaming client's signer
and the REST client's signer, which embed the identical HMAC-SHA256
construction) produce the identical hex output for identical payload
bytes. -/
theorem sign_deterministic_and_shared (s1 s2 p1 p2 : String)
    (hs : s1 = s2) (hp : p1 = p2) :
    WsClient.sign s1 p1 = Client.sign s2 p2 := by
  subst hs; subst hp; rfl

/-- Claim C6 witness: the two signers agree on a concrete secret and a
concrete auth payload. -/
theorem sign_deterministic_and_shared_witness :
    WsClient.sign "secret" "GET/realtime1700000300" =
      Client.sign "secret" "GET/realtime1700000300" :=
  sign_deterministic_and_shared "secret" "secret" "GET/realtime1700000300"
    "GET/realtime1700000300" rfl rfl

/-! ## Claim C7 — registration precedes the wire write -/

/-- Claim C7: for every `Subscribe(topic, handler)` call in the
authenticated (and connected) state, the performed trace is exactly the
registry store followed by the wire write of
`{"op":"subscribe","args":[topic]}` — so the store strictly precedes
the write, and at the moment the frame is sent the registry lookup of
the topic already yields the handler. -/
theorem subscribe_registers_before_send (c : ClientState) (topic : String) (h : Nat)
    (hauth : c.ws.isAuthenticated = true) (hconn : c.ws.isConnected = true)
    (hsock : c.ws.hasConn = true) :
    (WsClient.Subscribe c topic h).trace =
      [Action.register topic h,
       Action.send { op := "subscribe", args := [topic] }] ∧
    lookupHandler (WsClient.Subscribe c topic h).st.handlers topic = some h := by
  constructor
  · simp [WsClient.Subscribe, SendJSON, hauth, hconn, hsock]
  · simp [WsClient.Subscribe, hauth, lookupHandler_insert]

/-- Claim C7 witness: subscribing to `execution_report` on a connected,
authenticated client. -/
theorem subscribe_registers_before_send_witness :
    (WsClient.Subscribe authClient "execution_report" 7).trace =
      [Action.register "execution_report" 7,
       Action.send { op := "subscribe", args := ["execution_report"] }] ∧
    lookupHandler (WsClient.Subscribe authClient "execution_report" 7).st.handlers
      "execution_report" = some 7 :=
  subscribe_registers_before_send authClient "execution_report" 7 rfl rfl rfl

/-! ## Claim C8 — Disconnect is idempotent-safe -/

/-- Claim C8: a `Disconnect()` whose socket close succeeds always
leaves the client disconnected; calling `Disconnect()` again on that
state — or on any state that is already disconnected — is a no-op that
returns `nil`, does not close the `done` channel a second time (no
panic), and leaves all client state unchanged. -/
theorem disconnect_idempotent (s t : WsState) (e e' : Option String)
    (ht : t.isConnected = false) :
    (WsClient.Disconnect s none).st.isConnected = false ∧
    WsClient.Disconnect (WsClient.Disconnect s none).st e' =
      { panicked := false, err := none, st := (WsClient.Disconnect s none).st } ∧
    WsClient.Disconnect t e = { panicked := false, err := none, st := t } := by
  have hnoop : ∀ u : WsState, ∀ e0 : Option String, u.isConnected = false →
      WsClient.Disconnect u e0 = { panicked := false, err := none, st := u } := by
    intro u e0 hu
    simp [WsClient.Disconnect, hu]
  have hbase : (WsClient.Disconnect s none).st.isConnected = false := by
    by_cases hcs : s.isConnected = false
    · simp [WsClient.Disconnect, hcs]
    · simp only [Bool.not_eq_false] at hcs
      simp [WsClient.Disconnect, hcs]
  exact ⟨hbase, hnoop _ e' hbase, hnoop t e ht⟩

/-- Claim C8 witness: disconnecting the connected state and then
disconnecting again, and disconnecting the fresh (already disconnected)
state. -/
theorem disconnect_idempotent_witness :
    (WsClient.Disconnect connState none).st.isConnected = false ∧
    WsClient.Disconnect (WsClient.Disconnect connState none).st none =
      { panicked := false, err := none, st := (WsClient.Disconnect connState none).st } ∧
    WsClient.Disconnect initState none = { panicked := false, err := none, st := initState } :=
  disconnect_idempotent connState initState none none rfl

/-! ## Claim C9 — double Connect -/

/-- Claim C9: calling `Connect()` while already connected fails
synchronously with the already-connected error, attempts no dial, and
leaves the whole state (connection flag, socket handle, authentication
flag) unchanged. -/
theorem connect_already_connected (s : WsState) (o : DialOutcome) (e : Option String)
    (h : s.isConnected = true) :
    WsClient.Connect s o e =
      { err := some "already connected", dialed := false, st := s } := by
  simp [WsClient.Connect, h]

/-- Claim C9 witness: a second `Connect()` on the connected state. -/
theorem connect_already_connected_witness :
    WsClient.Connect connState DialOutcome.fail none =
      { err := some "already connected", dialed := false, st := connState } :=
  connect_already_connected connState DialOutcome.fail none rfl

/-! ## Claim C10 — authenticated implies connected -/

/-- First intermediate state of the C10 trace: socket dialed,
connected. -/
def s1x : WsState :=
  { isConnected := true, isAuthenticated := false, reconnect := true,
    doneClosed := false, hasConn := true, pendingAuthOk := false }

/-- Second intermediate state: the read loop has received the auth
success frame; the handler body has not yet run. -/
def s2x : WsState :=
  { isConnected := true, isAuthenticated := false, reconnect := true,
    doneClosed := false, hasConn := true, pendingAuthOk := true }

/-- Third intermediate state: a `Disconnect()` has completed while the
auth-handler invocation was still pending. -/
def s3x : WsState :=
  { isConnected := false, isAuthenticated := false, reconnect := false,
    doneClosed := true, hasConn := false, pendingAuthOk := true }

/-- The reachable state violating the claimed invariant: authenticated
but not connected. -/
def ghostAuthState : WsState :=
  { isConnected := false, isAuthenticated := true, reconnect := false,
    doneClosed := true, hasConn := false, pendingAuthOk := false }

/-- Claim C10 counterexample: the state with `IsAuthenticated() = true`
and `IsConnected() = false` is reachable — dial, receive the auth
success frame, complete a `Disconnect()`, and only then run the pending
`__auth__` handler, which sets the authenticated flag without
re-checking the connected flag (websocket.go:181-183). -/
theorem auth_without_connection_counterexample :
    Reachable ghostAuthState ∧
    ghostAuthState.isAuthenticated = true ∧ ghostAuthState.isConnected = false := by
  refine ⟨?_, rfl, rfl⟩
  have h1 : Step initState s1x := Step.dialOk initState rfl
  have h2 : Step s1x s2x := Step.readAuthOk s1x rfl
  have h3 : Step s2x s3x := Step.disconnect s2x none
  have h4 : Step s3x ghostAuthState := Step.authHandler s3x rfl
  exact Relation.ReflTransGen.head h1 (Relation.ReflTransGen.head h2
    (Relation.ReflTransGen.head h3 (Relation.ReflTransGen.head h4
      Relation.ReflTransGen.refl)))

/-- Claim C10 (amended): every atomic step that clears the connected
flag — a `Disconnect()` and the read-loop teardown — clears the
authenticated flag in the same critical section; the invariant can
nevertheless be violated, because the auth-success handler sets the
authenticated flag without checking the connected flag (see the
counterexample). -/
theorem clearing_connected_clears_authenticated (s s' : WsState)
    (hstep : Step s s') (hc : s.isConnected = true) (hc' : s'.isConnected = false) :
    s'.isAuthenticated = false := by
  cases hstep with
  | dialOk hu => simp at hc'
  | readAuthOk hu =>
      have hx : s.isConnected = false := hc'
      rw [hc] at hx
      simp at hx
  | authHandler hu =>
      have hx : s.isConnected = false := hc'
      rw [hc] at hx
      simp at hx
  | disconnect u =>
      cases u with
      | none => simp [WsClient.Disconnect, hc]
      | some v =>
          by_cases hh : s.hasConn = true
          · simp [WsClient.Disconnect, hc, hh] at hc'
          · simp [WsClient.Disconnect, hc, hh]
  | teardown hu => rfl

/-- Claim C10 amended witness: the read-loop teardown step from the
connected, authenticated state clears the authenticated flag. -/
theorem clearing_connected_clears_authenticated_witness :
    (readTeardown connState).isAuthenticated = false :=
  clearing_connected_clears_authenticated connState (readTeardown connState)
    (Step.teardown connState rfl) rfl rfl

end Versifi
